import Mathlib

/-!
Shallow embedding of the `capture` command-line tool (src/main.rs).

The program parses a URL plus optional `--output` and `--browser` flags,
locates a browser executable by probing a fixed candidate list with
`which`, builds a `single-file` command line and forwards the
subprocess's exit status. Effects (printing, spawning subprocesses) are
embedded as an explicit event trace; the environment is a pair of
functions giving the result of each `which` probe and of running the
assembled `single-file` command.
-/

namespace Capture

/-- Exit status of a subprocess: `some c` means it exited with code `c`,
`none` means abnormal termination (killed by a signal). Mirrors
`std::process::ExitStatus`. -/
structure ExitStatus where
  code : Option Int
deriving DecidableEq

/-- `ExitStatus::success()`: true exactly when the exit code is zero. -/
def ExitStatus.success (s : ExitStatus) : Bool :=
  s.code == some 0

/-- The `Display` rendering of an exit status, as printed by
`eprintln!("single-file failed with status: {}", status)`. -/
def ExitStatus.display : ExitStatus → String
  | ⟨some c⟩ => "exit status: " ++ toString c
  | ⟨none⟩ => "terminated by signal"

/-- The captured result of `Command::output()`; only the status field is
consulted by the program. -/
structure Output where
  status : ExitStatus
deriving DecidableEq

/-- The parsed command line (struct `Cli` in src/main.rs): a required
positional URL and optional `--output` / `--browser` values. -/
structure Cli where
  url : String
  output : Option String
  browser : Option String
deriving DecidableEq

/-- `const FILENAME_TEMPLATE` from src/main.rs line 4. -/
def FILENAME_TEMPLATE : String :=
  "\x7burl-hostname\x7d - \x7bdate-iso\x7d - \x7bpage-title\x7d.\x7bfilename-extension\x7d"

/-- `const BROWSER_CANDIDATES` from src/main.rs lines 6-12, in source order. -/
def BROWSER_CANDIDATES : List String :=
  ["chrome", "chromium", "google-chrome", "google-chrome-stable", "chromium-browser"]

/-- Observable events of one program invocation: a line printed to
standard output, a line printed to standard error, the spawn of a
`which <name>` probe, and the spawn of the `single-file` command with
the given argv (program name first). -/
inductive Event where
  | out (s : String)
  | err (s : String)
  | probe (name : String)
  | run (argv : List String)
deriving DecidableEq

/-- The availability test inside `find_browser`'s loop body:
`Command::new("which").arg(candidate).output().map(|o| o.status.success()).unwrap_or(false)`.
The environment `which` returns `none` when the probe subprocess itself
could not be spawned or run (`Command::output` returned `Err`). -/
def browser_avail (which : String → Option Output) (c : String) : Bool :=
  ((which c).map (fun o => o.status.success)).getD false

/-- The loop of `find_browser` (src/main.rs lines 31-40) over a candidate
list, recording one probe event per attempted candidate and returning
early at the first available candidate. -/
def find_browser_aux (which : String → Option Output) :
    List String → List Event × Option String
  | [] => ([], none)
  | c :: rest =>
    if browser_avail which c then
      ([Event.probe c], some c)
    else
      let r := find_browser_aux which rest
      (Event.probe c :: r.1, r.2)

/-- `fn find_browser() -> Option<String>` (src/main.rs lines 30-42),
together with the probe events it emits. -/
def find_browser (which : String → Option Output) : List Event × Option String :=
  find_browser_aux which BROWSER_CANDIDATES

/-- The argv assembled in main (src/main.rs lines 55-64): program name
`single-file`, then `--browser-executable-path <browser>`, then either
`<url> <output>` (when `--output` was given) or
`--filename-template <FILENAME_TEMPLATE> <url>`. -/
def build_cmd (browser url : String) (output : Option String) : List String :=
  "single-file" :: "--browser-executable-path" :: browser ::
    (match output with
     | some o => [url, o]
     | none => ["--filename-template", FILENAME_TEMPLATE, url])

/-- The process exit code produced by a Rust panic with the default
handler, as triggered by `.expect("Failed to execute single-file")`. -/
def PANIC_EXIT : Int := 101

/-- src/main.rs lines 53-73: print the progress line, run the assembled
`single-file` command and translate its outcome. `runStatus` is the
environment's answer to `cmd.status()`: `none` when the subprocess could
not be started (so `.expect` panics), otherwise the exit status. -/
def dispatch (cli : Cli) (browser : String)
    (runStatus : List String → Option ExitStatus) : List Event × Int :=
  let argv := build_cmd browser cli.url cli.output
  let pre := [Event.out ("Capturing " ++ cli.url), Event.run argv]
  match runStatus argv with
  | none => (pre ++ [Event.err "Failed to execute single-file"], PANIC_EXIT)
  | some st =>
    if st.success then
      (pre ++ [Event.out "Done"], 0)
    else
      (pre ++ [Event.err ("single-file failed with status: " ++ st.display)], 1)

/-- `fn main` (src/main.rs lines 44-74) after argument parsing: resolve
the browser (`cli.browser.or_else(find_browser)`), exiting with the
diagnostic when neither yields one, then dispatch. Returns the event
trace and the process exit code. -/
def main_run (cli : Cli) (which : String → Option Output)
    (runStatus : List String → Option ExitStatus) : List Event × Int :=
  match cli.browser with
  | some b => dispatch cli b runStatus
  | none =>
    let f := find_browser which
    match f.2 with
    | some b =>
      let d := dispatch cli b runStatus
      (f.1 ++ d.1, d.2)
    | none =>
      (f.1 ++
        [Event.err ("No browser found. Tried: " ++
          String.intercalate ", " BROWSER_CANDIDATES),
         Event.err "Specify one with --browser"], 1)

/-- The browser-resolution step of main in isolation:
`cli.browser.or_else(find_browser)` (src/main.rs line 47). -/
def resolve (cli : Cli) (which : String → Option Output) : Option String :=
  match cli.browser with
  | some b => some b
  | none => (find_browser which).2

/-- The probe events main emits: none when `--browser` was given,
otherwise those of `find_browser`. -/
def probe_events (cli : Cli) (which : String → Option Output) : List Event :=
  match cli.browser with
  | some _ => []
  | none => (find_browser which).1

/-- The lines an event trace prints to standard output, in order. -/
def stdoutOf : List Event → List String
  | [] => []
  | Event.out s :: r => s :: stdoutOf r
  | _ :: r => stdoutOf r

/-- The lines an event trace prints to standard error, in order. -/
def stderrOf : List Event → List String
  | [] => []
  | Event.err s :: r => s :: stderrOf r
  | _ :: r => stderrOf r

/-! ## Helper lemmas -/

theorem stdoutOf_append (a b : List Event) :
    stdoutOf (a ++ b) = stdoutOf a ++ stdoutOf b := by
  induction a with
  | nil => rfl
  | cons e r ih => cases e <;> simp [stdoutOf, ih]

theorem stderrOf_append (a b : List Event) :
    stderrOf (a ++ b) = stderrOf a ++ stderrOf b := by
  induction a with
  | nil => rfl
  | cons e r ih => cases e <;> simp [stderrOf, ih]

theorem find_browser_aux_events (which : String → Option Output) (l : List String) :
    ∀ e ∈ (find_browser_aux which l).1, ∃ c, e = Event.probe c := by
  induction l with
  | nil => intro e he; simp [find_browser_aux] at he
  | cons c rest ih =>
    intro e he
    by_cases h : browser_avail which c
    · simp [find_browser_aux, h] at he
      exact ⟨c, he⟩
    · simp [find_browser_aux, h] at he
      rcases he with he | he
      · exact ⟨c, he⟩
      · exact ih e he

theorem stdoutOf_find_browser_aux (which : String → Option Output) (l : List String) :
    stdoutOf (find_browser_aux which l).1 = [] := by
  induction l with
  | nil => rfl
  | cons c rest ih =>
    by_cases h : browser_avail which c
    · simp [find_browser_aux, h, stdoutOf]
    · simp [find_browser_aux, h, stdoutOf, ih]

theorem stderrOf_find_browser_aux (which : String → Option Output) (l : List String) :
    stderrOf (find_browser_aux which l).1 = [] := by
  induction l with
  | nil => rfl
  | cons c rest ih =>
    by_cases h : browser_avail which c
    · simp [find_browser_aux, h, stderrOf]
    · simp [find_browser_aux, h, stderrOf, ih]

theorem find_browser_aux_none_iff (which : String → Option Output) (l : List String) :
    (find_browser_aux which l).2 = none ↔
      ∀ c ∈ l, browser_avail which c = false := by
  induction l with
  | nil => simp [find_browser_aux]
  | cons c rest ih =>
    by_cases h : browser_avail which c
    · simp [find_browser_aux, h]
    · simp [find_browser_aux, h, ih]

theorem find_browser_aux_first (which : String → Option Output)
    (l1 : List String) (b : String) (l2 : List String)
    (h1 : ∀ c ∈ l1, browser_avail which c = false)
    (hb : browser_avail which b = true) :
    (find_browser_aux which (l1 ++ b :: l2)).2 = some b := by
  induction l1 with
  | nil => simp [find_browser_aux, hb]
  | cons c rest ih =>
    have hc : browser_avail which c = false := h1 c (by simp)
    simp only [List.cons_append, find_browser_aux, hc]
    simp only [Bool.false_eq_true, if_false]
    exact ih (fun x hx => h1 x (by simp [hx]))

theorem find_browser_aux_mem (which : String → Option Output) (l : List String)
    (b : String) (h : (find_browser_aux which l).2 = some b) : b ∈ l := by
  induction l with
  | nil => simp [find_browser_aux] at h
  | cons c rest ih =>
    by_cases hc : browser_avail which c
    · simp [find_browser_aux, hc] at h
      simp [h]
    · simp [find_browser_aux, hc] at h
      exact List.mem_cons_of_mem c (ih h)

/-- With a resolved browser, `main_run` is the probe events followed by
the dispatch trace, and the dispatch exit code. -/
theorem main_run_resolved (cli : Cli) (which : String → Option Output)
    (runStatus : List String → Option ExitStatus) (b : String)
    (h : resolve cli which = some b) :
    main_run cli which runStatus =
      (probe_events cli which ++ (dispatch cli b runStatus).1,
       (dispatch cli b runStatus).2) := by
  cases hb : cli.browser with
  | some b' =>
    have : b' = b := by
      simpa [resolve, hb] using h
    subst this
    simp [main_run, hb, probe_events]
  | none =>
    have hf : (find_browser which).2 = some b := by
      simpa [resolve, hb] using h
    simp [main_run, hb, hf, probe_events]

/-- The `single-file` spawn event is always in the dispatch trace. -/
theorem run_mem_dispatch (cli : Cli) (b : String)
    (runStatus : List String → Option ExitStatus) :
    Event.run (build_cmd b cli.url cli.output) ∈ (dispatch cli b runStatus).1 := by
  unfold dispatch
  cases h : runStatus (build_cmd b cli.url cli.output) with
  | none => simp [h]
  | some st => by_cases hs : st.success <;> simp [h, hs]

/-- Every event in the dispatch trace is an out, err or run event. -/
theorem dispatch_no_probe (cli : Cli) (b : String)
    (runStatus : List String → Option ExitStatus) (c : String) :
    Event.probe c ∉ (dispatch cli b runStatus).1 := by
  unfold dispatch
  cases h : runStatus (build_cmd b cli.url cli.output) with
  | none => simp [h]
  | some st => by_cases hs : st.success <;> simp [h, hs]

/-- With a resolved browser, the spawn of `single-file` appears in the
trace of `main_run`. -/
theorem run_mem_of_resolve (cli : Cli) (which : String → Option Output)
    (runStatus : List String → Option ExitStatus) (b : String)
    (h : resolve cli which = some b) :
    Event.run (build_cmd b cli.url cli.output) ∈ (main_run cli which runStatus).1 := by
  rw [main_run_resolved cli which runStatus b h]
  exact List.mem_append_right _ (run_mem_dispatch cli b runStatus)

theorem stdoutOf_probe_events (cli : Cli) (which : String → Option Output) :
    stdoutOf (probe_events cli which) = [] := by
  unfold probe_events
  cases cli.browser with
  | some b => rfl
  | none => exact stdoutOf_find_browser_aux which BROWSER_CANDIDATES

theorem stderrOf_probe_events (cli : Cli) (which : String → Option Output) :
    stderrOf (probe_events cli which) = [] := by
  unfold probe_events
  cases cli.browser with
  | some b => rfl
  | none => exact stderrOf_find_browser_aux which BROWSER_CANDIDATES

theorem probe_events_only_probes (cli : Cli) (which : String → Option Output) :
    ∀ e ∈ probe_events cli which, ∃ c, e = Event.probe c := by
  unfold probe_events
  cases cli.browser with
  | some b => intro e he; simp at he
  | none => exact find_browser_aux_events which BROWSER_CANDIDATES

/-- With no resolvable browser, `main_run` is the probe events followed
by the two diagnostic lines, with exit code 1. -/
theorem main_run_unresolved (cli : Cli) (which : String → Option Output)
    (runStatus : List String → Option ExitStatus)
    (h : resolve cli which = none) :
    main_run cli which runStatus =
      ((find_browser which).1 ++
        [Event.err ("No browser found. Tried: " ++
          String.intercalate ", " BROWSER_CANDIDATES),
         Event.err "Specify one with --browser"], 1) := by
  have hb : cli.browser = none := by
    cases hcb : cli.browser with
    | some b => simp [resolve, hcb] at h
    | none => rfl
  have hf : (find_browser which).2 = none := by
    simpa [resolve, hb] using h
  simp [main_run, hb, hf]

/-! ## Claim theorems -/

/-- C1: when `output` is present the dispatcher builds exactly
`single-file --browser-executable-path <b> <url> <output>` — the output
path is a positional argument, no `--filename-template` flag is added
(the literal only occurs if one of the user-supplied strings equals it),
and the spawn of exactly that command appears in main's trace. -/
theorem output_mode_command (cli : Cli) (which : String → Option Output)
    (runStatus : List String → Option ExitStatus) (b u o : String)
    (hu : cli.url = u) (ho : cli.output = some o)
    (hb : resolve cli which = some b) :
    build_cmd b u (some o) = ["single-file", "--browser-executable-path", b, u, o] ∧
    Event.run ["single-file", "--browser-executable-path", b, u, o] ∈
      (main_run cli which runStatus).1 ∧
    (b ≠ "--filename-template" → u ≠ "--filename-template" →
      o ≠ "--filename-template" →
      "--filename-template" ∉ build_cmd b u (some o)) := by
  refine ⟨rfl, ?_, ?_⟩
  · have hm := run_mem_of_resolve cli which runStatus b hb
    rw [hu, ho] at hm
    exact hm
  · intro h1 h2 h3 hmem
    have hd : "--filename-template" = b ∨ "--filename-template" = u ∨
        "--filename-template" = o := by
      simpa [build_cmd] using hmem
    rcases hd with h | h | h
    · exact h1 h.symm
    · exact h2 h.symm
    · exact h3 h.symm

/-- C1 witness: end-to-end scenario 2. -/
theorem output_mode_command_witness :
    resolve ⟨"https://example.com", some "out.html", some "/usr/bin/chromium"⟩
        (fun _ => none) = some "/usr/bin/chromium" ∧
    Event.run ["single-file", "--browser-executable-path", "/usr/bin/chromium",
        "https://example.com", "out.html"] ∈
      (main_run ⟨"https://example.com", some "out.html", some "/usr/bin/chromium"⟩
        (fun _ => none) (fun _ => none)).1 :=
  ⟨rfl,
   (output_mode_command ⟨"https://example.com", some "out.html", some "/usr/bin/chromium"⟩
      (fun _ => none) (fun _ => none) "/usr/bin/chromium" "https://example.com"
      "out.html" rfl rfl rfl).2.1⟩

/-- C2: when `output` is absent the dispatcher passes exactly the fixed
FILENAME_TEMPLATE constant as the value of `--filename-template`,
building `single-file --browser-executable-path <b> --filename-template
<template> <url>`, and the spawn of exactly that command appears in
main's trace. -/
theorem template_mode_command (cli : Cli) (which : String → Option Output)
    (runStatus : List String → Option ExitStatus) (b u : String)
    (hu : cli.url = u) (ho : cli.output = none)
    (hb : resolve cli which = some b) :
    FILENAME_TEMPLATE =
      "\x7burl-hostname\x7d - \x7bdate-iso\x7d - \x7bpage-title\x7d.\x7bfilename-extension\x7d" ∧
    build_cmd b u none =
      ["single-file", "--browser-executable-path", b,
       "--filename-template", FILENAME_TEMPLATE, u] ∧
    Event.run ["single-file", "--browser-executable-path", b,
       "--filename-template", FILENAME_TEMPLATE, u] ∈
      (main_run cli which runStatus).1 := by
  refine ⟨rfl, rfl, ?_⟩
  have hm := run_mem_of_resolve cli which runStatus b hb
  rw [hu, ho] at hm
  exact hm

/-- C2 witness: end-to-end scenario 1, with every candidate resolvable
so the locator picks "chrome". -/
theorem template_mode_command_witness :
    resolve ⟨"https://example.com", none, none⟩
        (fun _ => some ⟨⟨some 0⟩⟩) = some "chrome" ∧
    Event.run ["single-file", "--browser-executable-path", "chrome",
        "--filename-template", FILENAME_TEMPLATE, "https://example.com"] ∈
      (main_run ⟨"https://example.com", none, none⟩
        (fun _ => some ⟨⟨some 0⟩⟩) (fun _ => none)).1 :=
  ⟨rfl,
   (template_mode_command ⟨"https://example.com", none, none⟩
      (fun _ => some ⟨⟨some 0⟩⟩) (fun _ => none) "chrome" "https://example.com"
      rfl rfl rfl).2.2⟩

/-- C3: the locator returns the first candidate in fixed list order that
the availability query reports available, and none when no candidate is
available. -/
theorem find_browser_first_available (which : String → Option Output) :
    ((find_browser which).2 = none ↔
      ∀ c ∈ BROWSER_CANDIDATES, browser_avail which c = false) ∧
    (∀ l1 b l2, BROWSER_CANDIDATES = l1 ++ b :: l2 →
      (∀ c ∈ l1, browser_avail which c = false) →
      browser_avail which b = true →
      (find_browser which).2 = some b) := by
  constructor
  · exact find_browser_aux_none_iff which BROWSER_CANDIDATES
  · intro l1 b l2 hdec h1 hb
    unfold find_browser
    rw [hdec]
    exact find_browser_aux_first which l1 b l2 h1 hb

/-- C3 witness: with only the third candidate ("google-chrome")
available, the locator returns exactly it. -/
theorem find_browser_first_available_witness :
    (find_browser
        (fun c => if c = "google-chrome" then some ⟨⟨some 0⟩⟩ else none)).2 =
      some "google-chrome" :=
  (find_browser_first_available
      (fun c => if c = "google-chrome" then some ⟨⟨some 0⟩⟩ else none)).2
    ["chrome", "chromium"] "google-chrome"
    ["google-chrome-stable", "chromium-browser"]
    (by decide) (by decide) (by decide)

/-- C9: a probe whose spawn fails (`which c = none`) counts as
unavailable; the loop then continues with the remaining candidates, and
the locator is total: it returns none or some candidate from the list,
never an error. -/
theorem find_browser_total (which : String → Option Output) (c : String)
    (h : which c = none) :
    browser_avail which c = false ∧
    (∀ l, (find_browser_aux which (c :: l)).2 = (find_browser_aux which l).2) ∧
    ((find_browser which).2 = none ∨
      ∃ b, (find_browser which).2 = some b ∧ b ∈ BROWSER_CANDIDATES) := by
  have hav : browser_avail which c = false := by simp [browser_avail, h]
  refine ⟨hav, ?_, ?_⟩
  · intro l
    simp [find_browser_aux, hav]
  · cases hr : (find_browser which).2 with
    | none => exact Or.inl rfl
    | some b =>
      exact Or.inr ⟨b, rfl, find_browser_aux_mem which BROWSER_CANDIDATES b hr⟩

/-- C9 witness: an environment whose every probe spawn fails. -/
theorem find_browser_total_witness :
    (fun _ : String => (none : Option Output)) "chrome" = none ∧
    browser_avail (fun _ : String => (none : Option Output)) "chrome" = false :=
  ⟨rfl, (find_browser_total (fun _ => none) "chrome" rfl).1⟩

/-- C4: with no `--browser` and no candidate available, main prints to
the error stream a diagnostic naming every tried candidate followed by
the instruction to pass `--browser`, exits with code 1, and never spawns
the `single-file` tool. -/
theorem no_browser_diagnostic (cli : Cli) (which : String → Option Output)
    (runStatus : List String → Option ExitStatus)
    (hb : cli.browser = none)
    (hn : ∀ c ∈ BROWSER_CANDIDATES, browser_avail which c = false) :
    stderrOf (main_run cli which runStatus).1 =
      ["No browser found. Tried: chrome, chromium, google-chrome, google-chrome-stable, chromium-browser",
       "Specify one with --browser"] ∧
    (main_run cli which runStatus).2 = 1 ∧
    ∀ argv, Event.run argv ∉ (main_run cli which runStatus).1 := by
  have hf : (find_browser which).2 = none :=
    (find_browser_aux_none_iff which BROWSER_CANDIDATES).2 hn
  have hres : resolve cli which = none := by
    simp [resolve, hb, hf]
  have hmain := main_run_unresolved cli which runStatus hres
  have h1 : (main_run cli which runStatus).1 =
      (find_browser which).1 ++
        [Event.err ("No browser found. Tried: " ++
          String.intercalate ", " BROWSER_CANDIDATES),
         Event.err "Specify one with --browser"] := by
    rw [hmain]
  have h2 : (main_run cli which runStatus).2 = 1 := by
    rw [hmain]
  refine ⟨?_, h2, ?_⟩
  · rw [h1, stderrOf_append]
    have he : stderrOf (find_browser which).1 = [] :=
      stderrOf_find_browser_aux which BROWSER_CANDIDATES
    rw [he]
    rfl
  · intro argv hmem
    rw [h1] at hmem
    rcases List.mem_append.1 hmem with h | h
    · obtain ⟨c, hc⟩ := find_browser_aux_events which BROWSER_CANDIDATES _ h
      simp at hc
    · simp at h

/-- C4 witness: end-to-end scenario 3. -/
theorem no_browser_diagnostic_witness :
    (⟨"https://example.com", none, none⟩ : Cli).browser = none ∧
    stderrOf (main_run ⟨"https://example.com", none, none⟩
        (fun _ => none) (fun _ => none)).1 =
      ["No browser found. Tried: chrome, chromium, google-chrome, google-chrome-stable, chromium-browser",
       "Specify one with --browser"] ∧
    (main_run ⟨"https://example.com", none, none⟩
        (fun _ => none) (fun _ => none)).2 = 1 :=
  ⟨rfl,
   (no_browser_diagnostic ⟨"https://example.com", none, none⟩
      (fun _ => none) (fun _ => none) rfl (by decide)).1,
   (no_browser_diagnostic ⟨"https://example.com", none, none⟩
      (fun _ => none) (fun _ => none) rfl (by decide)).2.1⟩

/-- C5: an explicit `--browser` value takes unconditional precedence:
main's whole outcome is independent of the probe environment, no probe
subprocess is spawned, and the explicit value is used as the
browser-executable-path of the spawned command. -/
theorem explicit_browser_precedence (cli : Cli) (b : String)
    (which which' : String → Option Output)
    (runStatus : List String → Option ExitStatus)
    (h : cli.browser = some b) :
    main_run cli which runStatus = main_run cli which' runStatus ∧
    (∀ c, Event.probe c ∉ (main_run cli which runStatus).1) ∧
    Event.run (build_cmd b cli.url cli.output) ∈
      (main_run cli which runStatus).1 := by
  have e1 : main_run cli which runStatus = dispatch cli b runStatus := by
    simp [main_run, h]
  have e2 : main_run cli which' runStatus = dispatch cli b runStatus := by
    simp [main_run, h]
  refine ⟨e1.trans e2.symm, ?_, ?_⟩
  · intro c
    rw [e1]
    exact dispatch_no_probe cli b runStatus c
  · rw [e1]
    exact run_mem_dispatch cli b runStatus

/-- C5 witness: the outcome with an explicit browser is unchanged when
the probe environment flips from all-unavailable to all-available. -/
theorem explicit_browser_precedence_witness :
    (⟨"u", none, some "mybrowser"⟩ : Cli).browser = some "mybrowser" ∧
    main_run ⟨"u", none, some "mybrowser"⟩ (fun _ => none) (fun _ => none) =
      main_run ⟨"u", none, some "mybrowser"⟩
        (fun _ => some ⟨⟨some 0⟩⟩) (fun _ => none) :=
  ⟨rfl,
   (explicit_browser_precedence ⟨"u", none, some "mybrowser"⟩ "mybrowser"
      (fun _ => none) (fun _ => some ⟨⟨some 0⟩⟩) (fun _ => none) rfl).1⟩

/-- C6: once the subprocess has returned an exit status, exactly two
outcomes exist and they are exhaustive: success prints "Done" to stdout
and exits 0; failure prints the status to the error stream and exits 1. -/
theorem subprocess_outcomes (cli : Cli) (which : String → Option Output)
    (runStatus : List String → Option ExitStatus) (b : String) (st : ExitStatus)
    (hb : resolve cli which = some b)
    (hs : runStatus (build_cmd b cli.url cli.output) = some st) :
    (st.success = true ∨ st.success = false) ∧
    (st.success = true →
      stdoutOf (main_run cli which runStatus).1 =
        ["Capturing " ++ cli.url, "Done"] ∧
      stderrOf (main_run cli which runStatus).1 = [] ∧
      (main_run cli which runStatus).2 = 0) ∧
    (st.success = false →
      stderrOf (main_run cli which runStatus).1 =
        ["single-file failed with status: " ++ st.display] ∧
      stdoutOf (main_run cli which runStatus).1 = ["Capturing " ++ cli.url] ∧
      (main_run cli which runStatus).2 = 1) := by
  have hm := main_run_resolved cli which runStatus b hb
  refine ⟨by cases st.success <;> simp, ?_, ?_⟩
  · intro hsucc
    have hd : dispatch cli b runStatus =
        ([Event.out ("Capturing " ++ cli.url),
          Event.run (build_cmd b cli.url cli.output), Event.out "Done"], 0) := by
      simp [dispatch, hs, hsucc]
    rw [hd] at hm
    have h1 : (main_run cli which runStatus).1 =
        probe_events cli which ++
          [Event.out ("Capturing " ++ cli.url),
           Event.run (build_cmd b cli.url cli.output), Event.out "Done"] := by
      rw [hm]
    have h2 : (main_run cli which runStatus).2 = 0 := by
      rw [hm]
    refine ⟨?_, ?_, h2⟩
    · rw [h1, stdoutOf_append, stdoutOf_probe_events]
      rfl
    · rw [h1, stderrOf_append, stderrOf_probe_events]
      rfl
  · intro hfail
    have hd : dispatch cli b runStatus =
        ([Event.out ("Capturing " ++ cli.url),
          Event.run (build_cmd b cli.url cli.output),
          Event.err ("single-file failed with status: " ++ st.display)], 1) := by
      simp [dispatch, hs, hfail]
    rw [hd] at hm
    have h1 : (main_run cli which runStatus).1 =
        probe_events cli which ++
          [Event.out ("Capturing " ++ cli.url),
           Event.run (build_cmd b cli.url cli.output),
           Event.err ("single-file failed with status: " ++ st.display)] := by
      rw [hm]
    have h2 : (main_run cli which runStatus).2 = 1 := by
      rw [hm]
    refine ⟨?_, ?_, h2⟩
    · rw [h1, stderrOf_append, stderrOf_probe_events]
      rfl
    · rw [h1, stdoutOf_append, stdoutOf_probe_events]
      rfl

/-- C6 witness: a subprocess exiting with code 0 yields "Done" on stdout
and program exit code 0. -/
theorem subprocess_outcomes_witness :
    resolve ⟨"u", none, some "b"⟩ (fun _ => none) = some "b" ∧
    stdoutOf (main_run ⟨"u", none, some "b"⟩ (fun _ => none)
        (fun _ => some ⟨some 0⟩)).1 = ["Capturing u", "Done"] ∧
    (main_run ⟨"u", none, some "b"⟩ (fun _ => none)
        (fun _ => some ⟨some 0⟩)).2 = 0 := by
  have h := (subprocess_outcomes ⟨"u", none, some "b"⟩ (fun _ => none)
      (fun _ => some ⟨some 0⟩) "b" ⟨some 0⟩ rfl rfl).2.1 rfl
  exact ⟨rfl, h.1, h.2.2⟩

/-- C7 counterexample: a launch failure makes the program panic, so its
process exit code is 101, not the exit code 1 stated by the claim. -/
theorem launch_failure_exit_code_counterexample :
    (main_run ⟨"https://example.com", none, some "chrome"⟩
        (fun _ => none) (fun _ => none)).2 = 101 ∧ (101 : Int) ≠ 1 :=
  ⟨rfl, by decide⟩

/-- C7 amended: when the subprocess cannot be started, the program
terminates immediately via the `expect` panic — the trace ends at the
failure report, "Done" is never printed — with the non-zero Rust panic
exit code 101 rather than 1. -/
theorem launch_failure_panics (cli : Cli) (which : String → Option Output)
    (runStatus : List String → Option ExitStatus) (b : String)
    (hb : resolve cli which = some b)
    (hr : runStatus (build_cmd b cli.url cli.output) = none) :
    (main_run cli which runStatus).2 = PANIC_EXIT ∧
    PANIC_EXIT = 101 ∧
    (main_run cli which runStatus).2 ≠ 0 ∧
    (main_run cli which runStatus).1 =
      probe_events cli which ++
        [Event.out ("Capturing " ++ cli.url),
         Event.run (build_cmd b cli.url cli.output),
         Event.err "Failed to execute single-file"] ∧
    Event.out "Done" ∉ (main_run cli which runStatus).1 := by
  have hm := main_run_resolved cli which runStatus b hb
  have hd : dispatch cli b runStatus =
      ([Event.out ("Capturing " ++ cli.url),
        Event.run (build_cmd b cli.url cli.output),
        Event.err "Failed to execute single-file"], PANIC_EXIT) := by
    simp [dispatch, hr]
  rw [hd] at hm
  have h1 : (main_run cli which runStatus).1 =
      probe_events cli which ++
        [Event.out ("Capturing " ++ cli.url),
         Event.run (build_cmd b cli.url cli.output),
         Event.err "Failed to execute single-file"] := by
    rw [hm]
  have h2 : (main_run cli which runStatus).2 = PANIC_EXIT := by
    rw [hm]
  refine ⟨h2, rfl, by rw [h2]; decide, h1, ?_⟩
  intro hmem
  rw [h1] at hmem
  rcases List.mem_append.1 hmem with h | h
  · obtain ⟨c, hc⟩ := probe_events_only_probes cli which _ h
    simp at hc
  · simp at h
    have hl := congrArg String.length h
    rw [String.length_append] at hl
    have h4 : "Done".length = 4 := rfl
    have h10 : "Capturing ".length = 10 := rfl
    rw [h4, h10] at hl
    omega

/-- C7 amended witness: launch failure with an explicit browser. -/
theorem launch_failure_panics_witness :
    resolve ⟨"u", none, some "b"⟩ (fun _ => none) = some "b" ∧
    (main_run ⟨"u", none, some "b"⟩ (fun _ => none) (fun _ => none)).2 =
      PANIC_EXIT ∧
    (main_run ⟨"u", none, some "b"⟩ (fun _ => none) (fun _ => none)).2 ≠ 0 :=
  ⟨rfl,
   (launch_failure_panics ⟨"u", none, some "b"⟩ (fun _ => none) (fun _ => none)
      "b" rfl rfl).1,
   (launch_failure_panics ⟨"u", none, some "b"⟩ (fun _ => none) (fun _ => none)
      "b" rfl rfl).2.2.1⟩

/-- C8: every invocation that reaches dispatch emits the progress line
"Capturing <url>" on stdout strictly before the `single-file` spawn
event (only probe events, which print nothing, precede it), emits
"Done" on stdout on success, and emits the failure reports as error
events only. -/
theorem progress_messages (cli : Cli) (which : String → Option Output)
    (runStatus : List String → Option ExitStatus) (b : String)
    (hb : resolve cli which = some b) :
    stdoutOf (probe_events cli which) = [] ∧
    ∃ t, (main_run cli which runStatus).1 =
        probe_events cli which ++
          Event.out ("Capturing " ++ cli.url) ::
          Event.run (build_cmd b cli.url cli.output) :: t ∧
      (runStatus (build_cmd b cli.url cli.output) = none →
        t = [Event.err "Failed to execute single-file"]) ∧
      (∀ st, runStatus (build_cmd b cli.url cli.output) = some st →
        (st.success = true → t = [Event.out "Done"]) ∧
        (st.success = false →
          t = [Event.err ("single-file failed with status: " ++ st.display)])) := by
  refine ⟨stdoutOf_probe_events cli which, ?_⟩
  have hm := main_run_resolved cli which runStatus b hb
  cases hr : runStatus (build_cmd b cli.url cli.output) with
  | none =>
    refine ⟨[Event.err "Failed to execute single-file"], ?_, fun _ => rfl, ?_⟩
    · have hd : dispatch cli b runStatus =
          ([Event.out ("Capturing " ++ cli.url),
            Event.run (build_cmd b cli.url cli.output),
            Event.err "Failed to execute single-file"], PANIC_EXIT) := by
        simp [dispatch, hr]
      rw [hd] at hm
      rw [hm]
    · intro st hst
      exact Option.noConfusion hst
  | some st =>
    by_cases hsucc : st.success = true
    · refine ⟨[Event.out "Done"], ?_, ?_, ?_⟩
      · have hd : dispatch cli b runStatus =
            ([Event.out ("Capturing " ++ cli.url),
              Event.run (build_cmd b cli.url cli.output),
              Event.out "Done"], 0) := by
          simp [dispatch, hr, hsucc]
        rw [hd] at hm
        rw [hm]
      · intro h
        exact Option.noConfusion h
      · intro st' hst'
        injection hst' with he
        subst he
        exact ⟨fun _ => rfl, fun hf => by simp [hsucc] at hf⟩
    · have hfail : st.success = false := by
        simpa using hsucc
      refine ⟨[Event.err ("single-file failed with status: " ++ st.display)],
        ?_, ?_, ?_⟩
      · have hd : dispatch cli b runStatus =
            ([Event.out ("Capturing " ++ cli.url),
              Event.run (build_cmd b cli.url cli.output),
              Event.err ("single-file failed with status: " ++ st.display)], 1) := by
          simp [dispatch, hr, hfail]
        rw [hd] at hm
        rw [hm]
      · intro h
        exact Option.noConfusion h
      · intro st' hst'
        injection hst' with he
        subst he
        exact ⟨fun ht => by simp [ht] at hfail, fun _ => rfl⟩

/-- C8 witness: with an explicit browser and a succeeding subprocess,
stdout is exactly the progress line followed by "Done". -/
theorem progress_messages_witness :
    stdoutOf (main_run ⟨"u", none, some "b"⟩ (fun _ => none)
        (fun _ => some ⟨some 0⟩)).1 = ["Capturing u", "Done"] := by
  obtain ⟨h0, t, ht, hn, hsome⟩ := progress_messages ⟨"u", none, some "b"⟩
      (fun _ => none) (fun _ => some ⟨some 0⟩) "b" rfl
  have hd : t = [Event.out "Done"] := (hsome ⟨some 0⟩ rfl).1 rfl
  rw [hd] at ht
  rw [ht]
  rfl

/-- C10: on the browser-not-found exit path nothing has been printed to
standard output, and a stdout line can only ever occur in an invocation
whose browser resolution succeeded. -/
theorem no_stdout_without_browser (cli : Cli) (which : String → Option Output)
    (runStatus : List String → Option ExitStatus) :
    (resolve cli which = none →
      stdoutOf (main_run cli which runStatus).1 = [] ∧
      (main_run cli which runStatus).2 = 1) ∧
    (∀ s, Event.out s ∈ (main_run cli which runStatus).1 →
      (resolve cli which).isSome = true) := by
  constructor
  · intro h
    have hmain := main_run_unresolved cli which runStatus h
    have h1 : (main_run cli which runStatus).1 =
        (find_browser which).1 ++
          [Event.err ("No browser found. Tried: " ++
            String.intercalate ", " BROWSER_CANDIDATES),
           Event.err "Specify one with --browser"] := by
      rw [hmain]
    have h2 : (main_run cli which runStatus).2 = 1 := by
      rw [hmain]
    refine ⟨?_, h2⟩
    rw [h1, stdoutOf_append]
    have he : stdoutOf (find_browser which).1 = [] :=
      stdoutOf_find_browser_aux which BROWSER_CANDIDATES
    rw [he]
    rfl
  · intro s hmem
    cases hres : resolve cli which with
    | some b => rfl
    | none =>
      exfalso
      have hmain := main_run_unresolved cli which runStatus hres
      have h1 : (main_run cli which runStatus).1 =
          (find_browser which).1 ++
            [Event.err ("No browser found. Tried: " ++
              String.intercalate ", " BROWSER_CANDIDATES),
             Event.err "Specify one with --browser"] := by
        rw [hmain]
      rw [h1] at hmem
      rcases List.mem_append.1 hmem with h | h
      · obtain ⟨c, hc⟩ := find_browser_aux_events which BROWSER_CANDIDATES _ h
        simp at hc
      · simp at h

/-- C10 witness: no browser resolvable and none specified leaves stdout
empty. -/
theorem no_stdout_without_browser_witness :
    stdoutOf (main_run ⟨"https://example.com", none, none⟩
        (fun _ => none) (fun _ => none)).1 = [] ∧
    (main_run ⟨"https://example.com", none, none⟩
        (fun _ => none) (fun _ => none)).2 = 1 :=
  (no_stdout_without_browser ⟨"https://example.com", none, none⟩
      (fun _ => none) (fun _ => none)).1 rfl

end Capture
